import Mathlib

/-!
# Verification of the biometric-capture core (orb-core)

Shallow embedding of the biometric-capture Plan and the Orb broker facade
(`src/plans/biometric_capture/mod.rs`, `src/brokers/orb.rs`), together with
proofs of the specification claims about them.

Modelling conventions:
* `f64` values are modelled as rationals (`ℚ`).  The claims under
  consideration do not hinge on floating-point rounding or NaN except where
  noted at the definition concerned.
* `Instant` timestamps used as correlation keys (`source_ts`) are modelled
  as naturals; instants used for elapsed-time arithmetic (the occlusion
  indicator) are modelled as rationals measured in seconds.
* Channel sends to other agents, MCU commands and tracing/telemetry calls
  are external I/O without influence on the state examined by the claims;
  they are not part of the state.  Rust panics (`expect`, `unreachable!`,
  assertion failures) are modelled by returning `none`.
-/

namespace OrbCore

/-- Flow token returned by every Plan callback (`brokers::BrokerFlow`). -/
inductive BrokerFlow
  | Continue
  | Break
  deriving DecidableEq, Repr

/-- IR LED wavelength selector (`mcu::main::IrLed`); `off` is `IrLed::None`. -/
inductive IrLed
  | L740
  | L850
  | L940
  | off
  deriving DecidableEq, Repr

/-- Numeric constants from the crate's `consts` module.  The module itself is
not among the sources, so the values stay abstract; `irisBrightnessContains`
stands for `IRIS_BRIGHTNESS_RANGE.contains`. -/
structure Consts where
  irisScoreMin : ℚ
  irisSharpnessMin : ℚ
  thresholdOcclusion30 : ℚ
  continuousCalibrationReducer : ℚ
  irisBrightnessContains : ℚ → Bool

/-- An IR camera frame: an opaque handle with an identity and a
mean-intensity query (`camera::ir::Frame`). -/
structure IrFrame where
  id : Nat
  mean : ℚ
  deriving DecidableEq, Repr

/-- An RGB camera frame: an opaque handle (`camera::rgb::Frame`). -/
structure RgbFrame where
  id : Nat
  deriving DecidableEq, Repr

/-- IR-Net estimate output (`ir_net::EstimateOutput`), the fields used by the
biometric-capture Plan. -/
structure IrEstimate where
  score : ℚ
  sharpness : ℚ
  occlusion30 : ℚ
  perceivedSide : Option Int
  deriving DecidableEq, Repr

/-- A 2D point of the RGB-Net output (`rgb_net::Point`). -/
structure RnPoint where
  x : ℚ
  y : ℚ
  deriving DecidableEq, Repr

/-- RGB-Net bounding-box rectangle (`rgb_net::Rectangle`). -/
structure Rectangle where
  startX : ℚ
  startY : ℚ
  endX : ℚ
  endY : ℚ
  deriving DecidableEq, Repr

/-- Modelled from the spec: `rgb_net::Rectangle::is_correct` (the `rgb_net`
agent module is not among the sources) holds when the coordinates are finite
and ordered; finiteness is vacuous over `ℚ`. -/
def Rectangle.isCorrect (r : Rectangle) : Bool :=
  decide (r.startX ≤ r.endX) && decide (r.startY ≤ r.endY)

/-- One RGB-Net prediction: a bounding box plus eye landmarks. -/
structure RnPrediction where
  bbox : Rectangle
  eyeLandmarks : RnPoint × RnPoint
  deriving DecidableEq, Repr

/-- RGB-Net estimate output (`rgb_net::EstimateOutput`).  Modelled from the
spec where the `rgb_net` module is missing from the sources: `primary ()`
yields the optional primary prediction. -/
structure RgbEstimate where
  primary : Option RnPrediction
  deriving DecidableEq, Repr

/-- Face-identifier validity output
(`face_identifier::types::IsValidOutput`). -/
structure IsValidOutput where
  isValid : Option Bool
  score : Option ℚ
  error : Option Nat
  rgbNetBbox : Rectangle
  rgbNetEyeLandmarks : RnPoint × RnPoint
  deriving DecidableEq, Repr

/-- A mirror point / offset (`mirror::Point`). -/
structure MirrorPoint where
  horizontal : ℚ
  vertical : ℚ
  deriving DecidableEq, Repr

/-- One biometric-capture objective (`biometric_capture::Objective`). -/
structure Objective where
  targetLeftEye : Bool
  irLedWavelength : IrLed
  irLedDuration : Nat
  onlyRgbNetFrames : Bool
  deriving DecidableEq, Repr

/-- Accepted IR frame + estimate pair (`FrameInfo` instantiated at IR). -/
structure FrameInfoIr where
  estimate : IrEstimate
  frame : IrFrame
  deriving DecidableEq, Repr

/-- Accepted RGB frame + estimate pair (`FrameInfo` instantiated at RGB). -/
structure FrameInfoRgb where
  estimate : RgbEstimate
  frame : RgbFrame
  deriving DecidableEq, Repr

/-- Self-custody candidate frame + face-identifier output
(`FrameInfo` instantiated at the face-identifier output). -/
structure FrameInfoFace where
  estimate : IsValidOutput
  frame : RgbFrame
  deriving DecidableEq, Repr

/-! ## Occlusion filter and indicator (`Plan::update_occlusion`) -/

/-- `OCCLUSION_CENTER_LED_LOW_PASS_FILTER_RC = 0.4` seconds. -/
def occlusionRc : ℚ := 2 / 5

/-- `OCCLUSION_INDICATOR_MIN_TIME_INTERVAL = 450` ms, in seconds. -/
def occlusionMinInterval : ℚ := 9 / 20

/-- Modelled from the spec: `pid::LowPassFilter::add` (the `pid` module is
not among the sources) is a first-order low-pass IIR with time constant
`rc`; an empty (reset) filter takes the first sample as its value. -/
def lowPassAdd (state : Option ℚ) (x dt rc : ℚ) : ℚ :=
  match state with
  | none => x
  | some v => v + (x - v) * (dt / (rc + dt))

/-- State of the occlusion machinery inside the Plan: the monotonic timer
(`occlusion_center_led_timer`), the low-pass filter value
(`occlusion_30_filter`), and the time the indicator switched on
(`occlusion_indicator_on_time`). -/
structure OcclState where
  timerLast : Option ℚ
  filterValue : Option ℚ
  onTime : Option ℚ
  deriving DecidableEq, Repr

/-- Modelled from the spec: `pid::InstantTimer::get_dt` returns the time
since the previous call (`none` on the first call); `update_occlusion`
substitutes `0.0` for `none`. -/
def occlusionDt (s : OcclState) (now : ℚ) : ℚ :=
  match s.timerLast with
  | none => 0
  | some last => now - last

/-- The occlusion sample fed to the filter: `occlusion_30`, or the
safe-above-threshold substitute `THRESHOLD × 1.05` when sharpness is below
`IRIS_SHARPNESS_MIN`.  (The NaN checks of the source are vacuous over `ℚ`.) -/
def occlusionInput (c : Consts) (est : IrEstimate) : ℚ :=
  if est.sharpness < c.irisSharpnessMin then c.thresholdOcclusion30 * (21 / 20)
  else est.occlusion30

/-- The low-passed occlusion value computed by `update_occlusion`. -/
def occlusionFiltered (c : Consts) (s : OcclState) (est : IrEstimate) (now : ℚ) : ℚ :=
  lowPassAdd s.filterValue (occlusionInput c est) (occlusionDt s now) occlusionRc

/-- `Plan::update_occlusion`: update the timer and the filter, apply
hysteresis with a minimum pulse time, and return the new state together with
the occlusion LED indication. -/
def updateOcclusion (c : Consts) (s : OcclState) (est : IrEstimate) (now : ℚ) :
    OcclState × Bool :=
  let filtered := occlusionFiltered c s est now
  let detected : Bool :=
    match s.onTime with
    | some t0 =>
        decide (filtered < c.thresholdOcclusion30 * (41 / 40))
          || decide (now - t0 < occlusionMinInterval)
    | none => decide (filtered < c.thresholdOcclusion30 * (39 / 40))
  if detected then
    ({ timerLast := some now, filterValue := some filtered,
       onTime := some (s.onTime.getD now) }, true)
  else
    ({ timerLast := some now, filterValue := some filtered, onTime := none }, false)

/-- Iterated `update_occlusion` over a sequence of (estimate, time) updates,
collecting the indicator outputs. -/
def occlusionRun (c : Consts) (s : OcclState) :
    List (IrEstimate × ℚ) → OcclState × List Bool
  | [] => (s, [])
  | (est, now) :: rest =>
      let (s', b) := updateOcclusion c s est now
      let (sEnd, bs) := occlusionRun c s' rest
      (sEnd, b :: bs)

/-! ## Plan state and handlers (`plans::biometric_capture::Plan`) -/

/-- LED engine calls made by the Plan (`led::Engine` methods used during
biometric capture). -/
inductive LedEvent
  | halfObjectivesCompleted
  | allObjectivesCompleted
  | progress (value : ℚ)
  | occlusion (lit : Bool)
  deriving DecidableEq, Repr

/-- Mutable state of the biometric-capture `Plan` (the fields the claims
touch; `timeout` itself lives in the event loop and is passed to `pollExtra`
as a readiness flag). -/
structure PlanState where
  objectives : List Objective
  targetLeftEye : Bool
  timedOut : Bool
  leftIr : Option FrameInfoIr
  leftRgb : Option FrameInfoRgb
  rightIr : Option FrameInfoIr
  rightRgb : Option FrameInfoRgb
  selfCustodyCandidateRgb : Option FrameInfoFace
  latitude : Option ℚ
  longitude : Option ℚ
  gpsPoints : Nat
  maxSharpness : ℚ
  totalObjectives : Nat
  occl : OcclState
  mirrorOffsets : List MirrorPoint
  deriving Repr

/-- The slice of the `Orb` facade state the Plan handlers and lifecycle
methods read or write: one `Bool` per agent cell (enabled/disabled), the
model-enabled flags, and the shared control fields. -/
structure OrbState where
  irEyeCamera : Bool
  irFaceCamera : Bool
  rgbCamera : Bool
  thermalCamera : Bool
  megaAgentOne : Bool
  megaAgentTwo : Bool
  irAutoFocus : Bool
  irAutoExposure : Bool
  eyeTracker : Bool
  eyePidController : Bool
  mirror : Bool
  distance : Bool
  irNetEnabled : Bool
  rgbNetEnabled : Bool
  onlyRgbNetFrames : Bool
  targetLeftEye : Bool
  irLedWavelength : IrLed
  irLedDuration : Nat
  irAutoFocusUseRgbNetEstimate : Bool
  mirrorPoint : Option MirrorPoint
  mirrorOffset : Option MirrorPoint
  deriving Repr

/-- `MAX_PROGRESS = 0.8` (local constant of `Plan::update_ux`). -/
def maxProgress : ℚ := 4 / 5

/-- `FACE_IDENTIFIED_PROGRESS = 0.25` (local constant of
`Plan::update_ux`). -/
def faceIdentifiedProgress : ℚ := 1 / 4

/-- `Plan::update_ux`: bump the monotonic `max_sharpness`, compute the
progress value, and emit the LED calls (a completion pattern when the
respective branch is taken, then the progress bar). -/
def updateUx (c : Consts) (s : PlanState) (sharpness : ℚ) :
    PlanState × List LedEvent :=
  let maxSharpness := max sharpness s.maxSharpness
  let currObjectiveIndex := s.totalObjectives - s.objectives.length - 1
  let currObjectiveProgress := min (maxSharpness / c.irisScoreMin) 1
  let totalObjectiveProgress :=
    ((currObjectiveIndex : ℚ) + currObjectiveProgress) / (s.totalObjectives : ℚ)
  let progress := totalObjectiveProgress * (maxProgress - faceIdentifiedProgress)
    + (if s.selfCustodyCandidateRgb.isSome then faceIdentifiedProgress else 0)
  let completionEvents :=
    if s.objectives.length ≤ s.totalObjectives / 2 then
      [LedEvent.halfObjectivesCompleted]
    else if s.objectives.isEmpty then
      [LedEvent.allObjectivesCompleted]
    else []
  ({ s with maxSharpness := maxSharpness },
   completionEvents ++ [LedEvent.progress progress])

/-- Output variants of the IR-Net model (`ir_net::Output`). -/
inductive IrNetOutput
  | estimate (e : IrEstimate)
  | version (v : Nat)
  | error
  | warmup
  deriving DecidableEq, Repr

/-- `Plan::handle_ir_net` (`aeEnabled` is `orb.ir_auto_exposure.is_enabled()`,
`now` the current instant; the attached frame restored by the broker is
`frame`).  Returns the new Plan state, the LED calls made, and the flow
token; `none` models the panics (`frame.expect`, `unreachable!`). -/
def handleIrNet (c : Consts) (aeEnabled : Bool) (s : PlanState)
    (output : IrNetOutput) (frame : Option IrFrame) (now : ℚ) :
    Option (PlanState × List LedEvent × BrokerFlow) :=
  match output with
  | .estimate est =>
      let occlResult := updateOcclusion c s.occl est now
      let s := { s with occl := occlResult.1 }
      let occlEvents := [LedEvent.occlusion occlResult.2]
      match est.perceivedSide with
      | some side =>
          if side ≠ (if !s.targetLeftEye then 1 else 0) then
            -- skipping frame due to target and perceived side mismatch
            some (s, occlEvents, .Continue)
          else
            let uxResult := updateUx c s est.sharpness
            let s := uxResult.1
            match frame with
            | none => none
            | some frame =>
                let validCapture := decide (c.irisScoreMin ≤ est.score)
                  && (!aeEnabled || c.irisBrightnessContains frame.mean)
                if validCapture then
                  let info : FrameInfoIr := ⟨est, frame⟩
                  let s :=
                    if s.targetLeftEye then { s with leftIr := some info }
                    else { s with rightIr := some info }
                  some (s, occlEvents ++ uxResult.2, .Continue)
                else
                  some (s, occlEvents ++ uxResult.2, .Continue)
      | none =>
          -- perceived_side is None: skipping frame
          some (s, occlEvents, .Continue)
  | .version _ => some (s, [], .Continue)
  | .error => some (s, [], .Continue)
  | .warmup => none

/-- Output variants of the RGB-Net model (`rgb_net::Output`) seen by the
Plan. -/
inductive RgbNetOutput
  | estimate (e : RgbEstimate)
  | initUndistort
  deriving DecidableEq, Repr

/-- `Plan::handle_rgb_net`: accept the frame into the target eye's RGB slot
iff the primary prediction exists and its bounding box is well-formed. -/
def handleRgbNet (s : PlanState) (output : RgbNetOutput)
    (frame : Option RgbFrame) : Option (PlanState × BrokerFlow) :=
  match output with
  | .estimate est =>
      match est.primary with
      | some prediction =>
          if prediction.bbox.isCorrect then
            match frame with
            | none => none
            | some frame =>
                let info : FrameInfoRgb := ⟨est, frame⟩
                let s :=
                  if s.targetLeftEye then { s with leftRgb := some info }
                  else { s with rightRgb := some info }
                some (s, .Continue)
          else some (s, .Continue)
      | none => some (s, .Continue)
  | .initUndistort => some (s, .Continue)

/-- Output variants of the face-identifier model seen by the Plan
(`face_identifier::Output`); variants other than `IsValidImage` fall
through. -/
inductive FaceIdentifierOutput
  | isValidImage (out : IsValidOutput)
  | other
  deriving DecidableEq, Repr

/-- The best self-custody score seen so far
(`self_custody_candidate_rgb.map_or(0.0, |p| p.estimate.score.unwrap_or_default())`). -/
def candidateHighestScore (s : PlanState) : ℚ :=
  match s.selfCustodyCandidateRgb with
  | none => 0
  | some p => p.estimate.score.getD 0

/-- `Plan::handle_face_identifier`: on a valid image replace the candidate
when the score strictly exceeds the best so far, and switch the RGB pipeline
back to `only_rgb_net_frames` (a field of the `Orb`). -/
def handleFaceIdentifier (s : PlanState) (orb : OrbState)
    (output : FaceIdentifierOutput) (frame : Option RgbFrame) :
    Option (PlanState × OrbState × BrokerFlow) :=
  match output with
  | .isValidImage out =>
      if out.isValid.getD false then
        let highest := candidateHighestScore s
        let replaces : Bool :=
          match out.score with
          | some sc => decide (highest < sc)
          | none => false
        if replaces then
          match frame with
          | none => none
          | some f =>
              some ({ s with selfCustodyCandidateRgb := some ⟨out, f⟩ },
                    { orb with onlyRgbNetFrames := true }, .Continue)
        else
          some (s, { orb with onlyRgbNetFrames := true }, .Continue)
      else
        some (s, orb, .Continue)
  | .other => some (s, orb, .Continue)

/-! ## Objective advancement (`poll_extra`, `run_check`) -/

/-- A GPS broadcast message reduced to the coordinates `track_gps`
extracts. -/
structure GpsMsg where
  latitude : Option ℚ
  longitude : Option ℚ
  deriving DecidableEq, Repr

/-- `Plan::track_gps`: running average of latitude and longitude. -/
def trackGps (s : PlanState) (msg : GpsMsg) : PlanState :=
  match msg.latitude, msg.longitude with
  | some lat, some lon =>
      let prevLat := s.latitude.getD 0
      let prevLon := s.longitude.getD 0
      let n := s.gpsPoints + 1
      { s with
        gpsPoints := n
        latitude := some (prevLat + (lat - prevLat) / (n : ℚ))
        longitude := some (prevLon + (lon - prevLon) / (n : ℚ)) }
  | _, _ => s

/-- `Plan::poll_extra`: drain pending GPS broadcasts, test the two
slot-completion break conditions, then poll the session timeout
(`timeoutReady` is the readiness of the fused timer). -/
def pollExtra (s : PlanState) (gps : List GpsMsg) (timeoutReady : Bool) :
    PlanState × BrokerFlow :=
  let s := gps.foldl trackGps s
  let slots := if s.targetLeftEye then (s.leftRgb, s.leftIr) else (s.rightRgb, s.rightIr)
  if slots.1.isSome && slots.2.isSome then
    if !s.objectives.isEmpty then (s, .Break)
    else if s.selfCustodyCandidateRgb.isSome then (s, .Break)
    else if timeoutReady then ({ s with timedOut := true }, .Break)
    else (s, .Continue)
  else if timeoutReady then ({ s with timedOut := true }, .Break)
  else (s, .Continue)

/-- `Plan::set_next_objective`: pop the next objective, reset
`max_sharpness`, and push the targeting parameters into the Orb; returns
`false` when the queue is exhausted.  (The MCU and agent-channel messages
sent along the way are external I/O.) -/
def setNextObjective (s : PlanState) (orb : OrbState) :
    PlanState × OrbState × Bool :=
  match s.objectives with
  | [] => (s, orb, false)
  | o :: rest =>
      ({ s with objectives := rest, maxSharpness := 0,
                targetLeftEye := o.targetLeftEye },
       { orb with targetLeftEye := o.targetLeftEye,
                  irLedWavelength := o.irLedWavelength,
                  irLedDuration := o.irLedDuration,
                  onlyRgbNetFrames := o.onlyRgbNetFrames }, true)

/-- `Plan::run_check`: record the current mirror offset, then decide whether
the outer loop terminates (timed out, or no objective left).  `none` models
the `expect` on an absent `orb.mirror_offset`. -/
def runCheck (s : PlanState) (orb : OrbState) :
    Option (PlanState × OrbState × Bool) :=
  match orb.mirrorOffset with
  | none => none
  | some offset =>
      let s := { s with mirrorOffsets := s.mirrorOffsets ++ [offset] }
      if s.timedOut then some (s, orb, true)
      else
        let next := setNextObjective s orb
        if next.2.2 then some (next.1, next.2.1, false)
        else some (next.1, next.2.1, true)

/-! ## Capture assembly and session output -/

/-- Biometric data captured for one eye (`EyeCapture`). -/
structure EyeCapture where
  irFrame : IrFrame
  irFrame940nm : Option IrFrame
  irFrame740nm : Option IrFrame
  irNetEstimate : IrEstimate
  rgbFrame : RgbFrame
  rgbNetEstimate : RgbEstimate
  deriving DecidableEq, Repr

/-- Face frame and estimate for the self-custody candidate
(`SelfCustodyCandidate`). -/
structure SelfCustodyCandidate where
  rgbFrame : RgbFrame
  rgbNetEyeLandmarks : RnPoint × RnPoint
  rgbNetBbox : Rectangle
  deriving DecidableEq, Repr

/-- Combined data for both eyes (`Capture`). -/
structure Capture where
  eyeLeft : EyeCapture
  eyeRight : EyeCapture
  faceSelfCustodyCandidate : SelfCustodyCandidate
  latitude : Option ℚ
  longitude : Option ℚ
  deriving DecidableEq, Repr

/-- Configuration history of the capture (`Log`); the four histories are
opaque tokens handed over by the respective stop operations. -/
structure Log where
  irEyeCamera : Nat
  irFaceCamera : Nat
  mainMcu : Nat
  mirror : Nat
  deriving DecidableEq, Repr

/-- Biometric capture output (`Output`). -/
structure Output where
  capture : Option Capture
  log : Log
  deriving DecidableEq, Repr

/-- `Plan::into_capture`: all four eye slots plus the self-custody candidate
must be populated, else `None`. -/
def intoCapture (s : PlanState) : Option Capture := do
  let leftIr ← s.leftIr
  let leftRgb ← s.leftRgb
  let rightIr ← s.rightIr
  let rightRgb ← s.rightRgb
  let cand ← s.selfCustodyCandidateRgb
  pure
    { eyeLeft :=
        { irFrame := leftIr.frame, irFrame940nm := none, irFrame740nm := none,
          irNetEstimate := leftIr.estimate, rgbFrame := leftRgb.frame,
          rgbNetEstimate := leftRgb.estimate }
      eyeRight :=
        { irFrame := rightIr.frame, irFrame940nm := none, irFrame740nm := none,
          irNetEstimate := rightIr.estimate, rgbFrame := rightRgb.frame,
          rgbNetEstimate := rightRgb.estimate }
      faceSelfCustodyCandidate :=
        { rgbFrame := cand.frame,
          rgbNetEyeLandmarks := cand.estimate.rgbNetEyeLandmarks,
          rgbNetBbox := cand.estimate.rgbNetBbox }
      latitude := s.latitude
      longitude := s.longitude }

/-! ## Continuous calibration (`continuous_calibration`) -/

/-- Persisted mirror calibration offsets (`calibration.mirror`). -/
structure MirrorCalibration where
  horizontalOffset : ℚ
  verticalOffset : ℚ
  deriving DecidableEq, Repr

/-- Persisted calibration (`Calibration`), reduced to the mirror part
`continuous_calibration` mutates. -/
structure Calibration where
  mirror : MirrorCalibration
  deriving DecidableEq, Repr

/-- Result of `continuous_calibration`: the new calibration, whether it was
persisted (`calibration.store()`), and whether the mirror actuator was asked
to reload it (`orb.recalibrate`). -/
structure CalibrationResult where
  calibration : Calibration
  stored : Bool
  reloadRequested : Bool
  deriving DecidableEq, Repr

/-- `Iterator::min_by_key(|x| OrderedFloat(x.abs()))`: fold keeping the
first element of minimum absolute value (`none` on an empty list). -/
def minByAbsKey (l : List ℚ) : Option ℚ :=
  l.foldl
    (fun acc x =>
      match acc with
      | none => some x
      | some m => if |x| < |m| then some x else some m)
    none

/-- `continuous_calibration`: add the horizontal and vertical sample values
of minimum absolute magnitude, each scaled by
`CONTINUOUS_CALIBRATION_REDUCER`, to the persisted offsets, store, and
request a mirror reload.  `none` models the `expect` panic on an empty
sample list. -/
def continuousCalibration (c : Consts) (cal : Calibration)
    (mirrorOffsets : List MirrorPoint) : Option CalibrationResult := do
  let horizontal ← minByAbsKey (mirrorOffsets.map (·.horizontal))
  let vertical ← minByAbsKey (mirrorOffsets.map (·.vertical))
  let cal :=
    { cal with
      mirror :=
        { horizontalOffset :=
            cal.mirror.horizontalOffset + horizontal * c.continuousCalibrationReducer
          verticalOffset :=
            cal.mirror.verticalOffset + vertical * c.continuousCalibrationReducer } }
  pure { calibration := cal, stored := true, reloadRequested := true }

/-! ## Orb lifecycle operations used by `run_pre` / `run_post`

The `enable_*` / `disable_*` cell operations are generated by the `Broker`
derive macro, which is not among the sources; modelled from the spec, they
flip the agent cell between `Disabled` and `Enabled` (here a `Bool`), and
`try_enable_*` enables the cell when it is not already enabled.  The
`start_*` / `stop_*` procedures below follow `brokers/orb.rs`; MCU commands
and agent-channel messages they send are external I/O.  A `stop_*` on a
disabled agent panics (`expect`), modelled by `none`. -/

/-- `Orb::enable_ir_net`: enable the hosting mega-agent-one cell and set the
model flag. -/
def enableIrNet (orb : OrbState) : OrbState :=
  { orb with megaAgentOne := true, irNetEnabled := true }

/-- `Orb::enable_rgb_net`: enable the hosting mega-agent-two cell, set the
model flag and the frame-routing mode. -/
def enableRgbNet (orb : OrbState) (onlyRgbNetFrames : Bool) : OrbState :=
  { orb with megaAgentTwo := true, rgbNetEnabled := true,
             onlyRgbNetFrames := onlyRgbNetFrames }

/-- `Orb::disable_ir_net`: clears the model flag only. -/
def disableIrNet (orb : OrbState) : OrbState :=
  { orb with irNetEnabled := false }

/-- `Orb::disable_rgb_net`: resets the routing mode and clears the model
flag only. -/
def disableRgbNet (orb : OrbState) : OrbState :=
  { orb with onlyRgbNetFrames := true, rgbNetEnabled := false }

/-- `Orb::run_pre` body of `Plan::run_pre`: enable the models, start the
cameras and the auxiliary agents, load the first objective, and prime the
occlusion filter with `THRESHOLD × 1.5`.  `none` models the assertion
failure when the objective queue is empty. -/
def runPre (c : Consts) (s : PlanState) (orb : OrbState)
    (thermalConfigured : Bool) : Option (PlanState × OrbState) :=
  let orb := enableIrNet orb
  let orb := enableRgbNet orb false
  let orb := { orb with irEyeCamera := true }
  let orb := { orb with irFaceCamera := true }
  let orb := { orb with rgbCamera := true, onlyRgbNetFrames := true }
  let orb := if thermalConfigured then { orb with thermalCamera := true } else orb
  let orb := { orb with mirror := true }
  let orb := { orb with distance := true }
  let orb := { orb with irAutoFocus := true, irAutoFocusUseRgbNetEstimate := true }
  let orb := { orb with eyeTracker := true }
  let orb := { orb with eyePidController := true }
  let orb := { orb with irAutoExposure := true }
  let next := setNextObjective s orb
  if next.2.2 then
    let s := next.1
    let orb := next.2.1
    let filterValue :=
      lowPassAdd none (c.thresholdOcclusion30 * (3 / 2)) 0 occlusionRc
    let s :=
      { s with occl := { timerLast := s.occl.timerLast,
                         filterValue := some filterValue, onTime := s.occl.onTime } }
    some (s, orb)
  else none

/-- Result of `Plan::run_post`. -/
structure RunPostResult where
  orb : OrbState
  output : Output
  calibration : Calibration
  calibrationRan : Bool
  deriving Repr

/-- `Plan::run_post`: disable the models and auto-exposure, stop the
auxiliary agents and cameras, collect the four logs, run continuous
calibration when the capture is complete, and build the `Output`.  `none`
models the lifecycle-misuse panics of the `stop_*` calls and the
continuous-calibration panic. -/
def runPost (c : Consts) (s : PlanState) (orb : OrbState)
    (cal : Calibration) (logIrEye logIrFace logMcu logMirror : Nat) :
    Option RunPostResult :=
  let orb := disableIrNet orb
  let orb := disableRgbNet orb
  let orb := { orb with irAutoExposure := false }
  let orb := { orb with eyeTracker := true }    -- try_enable_eye_tracker
  let orb := { orb with eyeTracker := false, mirrorPoint := none }
  let orb := { orb with irAutoFocus := true }   -- try_enable_ir_auto_focus
  let orb := { orb with irAutoFocus := false }
  if !orb.distance then none else
  let orb := { orb with distance := false }
  let orb := if orb.thermalCamera then { orb with thermalCamera := false } else orb
  if !orb.rgbCamera then none else
  let orb := { orb with rgbCamera := false }
  let orb := { orb with eyePidController := true }  -- try_enable_eye_pid_controller
  let orb := { orb with eyePidController := false, mirrorOffset := none }
  if !orb.irEyeCamera then none else
  let orb := { orb with irEyeCamera := false }
  if !orb.irFaceCamera then none else
  let orb := { orb with irFaceCamera := false }
  let capture := intoCapture s
  let calStateOpt : Option (Calibration × Bool) :=
    match capture with
    | some _ =>
        (continuousCalibration c cal s.mirrorOffsets).map
          (fun res => (res.calibration, true))
    | none => some (cal, false)
  match calStateOpt with
  | none => none
  | some calState =>
      if !orb.mirror then none else
      let orb := { orb with mirror := false }
      some
        { orb := orb
          output :=
            { capture := capture
              log :=
                { irEyeCamera := logIrEye, irFaceCamera := logIrFace,
                  mainMcu := logMcu, mirror := logMirror } }
          calibration := calState.1
          calibrationRan := calState.2 }

/-! ## Frame re-pairing by `source_ts` (`brokers/orb.rs`)

The pending RGB queue `rgb_net_frames` records `(frame, source_ts)` pairs.
The non-fusion handlers pop entries until one matches the output's
`source_ts`; the fusion handler's loop compares the popped entry's own
timestamp with itself (the popped binding shadows the parameter), a
tautology. -/

/-- The `restore_frame!` loop of `Orb::handle_rgb_net` /
`Orb::handle_ir_net`: discard older entries in FIFO order until one has
`source_ts` equal to the output's; `none` when the queue drains. -/
def restoreFrameByTs (ts : Nat) :
    List (RgbFrame × Nat) → Option (RgbFrame × List (RgbFrame × Nat))
  | [] => none
  | (frame, entryTs) :: rest =>
      if entryTs = ts then some (frame, rest) else restoreFrameByTs ts rest

/-- The `restore_frame!` loop of
`Orb::handle_fusion_rgb_net_face_identifier` as written: the popped pair's
`source_ts` shadows the handler's `source_ts` parameter, so the comparison
`source_ts == source_ts` is a tautology and the loop breaks on the first
pop.  `none` models the `unreachable!` on an empty queue. -/
def fusionRestoreFrame (queue : List (RgbFrame × Nat)) :
    Option (RgbFrame × List (RgbFrame × Nat)) :=
  match queue with
  | [] => none
  | (frame, entryTs) :: rest =>
      if entryTs = entryTs then some (frame, rest) else fusionRestoreFrame rest

/-! ## Backpressure and the pending-frame queue (`send_ir_net_estimate`)

`Orb::send_ir_net_estimate` / `Orb::send_rgb_net_estimate` try-send the
request into the model's inbox and record the frame in the pending queue
only on success; a full inbox drops the frame without error.  The inbox
channel and the model agent live outside the sources (the agent cell is
macro-generated, the model is a subprocess); modelled from the spec: the
inbox is a bounded queue of the given capacity, the model dequeues one
request at a time and later answers it with an estimate carrying the
request's `source_ts`, which the broker handler pairs against the pending
queue in FIFO order. -/

/-- State of one model pipeline: the bounded inbox, the requests the model
has dequeued but not yet answered, and the broker's pending-frame queue
(entries reduced to their `source_ts`). -/
structure ModelChannel where
  capacity : Nat
  inbox : List Nat
  inflight : List Nat
  pending : List Nat
  deriving DecidableEq, Repr

/-- Events of the model pipeline: the broker sends a frame toward the model,
the model dequeues a request, the model's estimate arrives and is paired. -/
inductive ChanEvent
  | sendFrame (ts : Nat)
  | modelDequeue
  | emitEstimate
  deriving DecidableEq, Repr

/-- The discard scan of the pairing loop on timestamps: pop entries until
one equals the estimate's `source_ts`. -/
def popUntil (ts : Nat) : List Nat → List Nat
  | [] => []
  | t :: rest => if t = ts then rest else popUntil ts rest

/-- One transition of the model pipeline. -/
def chanStep (s : ModelChannel) : ChanEvent → ModelChannel
  | .sendFrame ts =>
      if s.inbox.length < s.capacity then
        { s with inbox := s.inbox ++ [ts], pending := s.pending ++ [ts] }
      else s
  | .modelDequeue =>
      match s.inbox with
      | [] => s
      | t :: rest => { s with inbox := rest, inflight := s.inflight ++ [t] }
  | .emitEstimate =>
      match s.inflight with
      | [] => s
      | t :: rest => { s with inflight := rest, pending := popUntil t s.pending }

/-- Run the model pipeline from an empty start state. -/
def chanRun (cap : Nat) (events : List ChanEvent) : ModelChannel :=
  events.foldl chanStep { capacity := cap, inbox := [], inflight := [], pending := [] }

/-! ## Concrete fixtures used by witnesses and counterexamples -/

/-- A concrete instantiation of the abstract constants. -/
def cEx : Consts :=
  { irisScoreMin := 1 / 2, irisSharpnessMin := 1 / 5, thresholdOcclusion30 := 10,
    continuousCalibrationReducer := 1 / 2, irisBrightnessContains := fun _ => true }

/-- An empty occlusion state (fresh Plan). -/
def occlEmpty : OcclState := { timerLast := none, filterValue := none, onTime := none }

/-- A Plan state at the end of a two-objective session: every objective
popped, no slot filled. -/
def planBase : PlanState :=
  { objectives := [], targetLeftEye := false, timedOut := false,
    leftIr := none, leftRgb := none, rightIr := none, rightRgb := none,
    selfCustodyCandidateRgb := none, latitude := none, longitude := none,
    gpsPoints := 0, maxSharpness := 0, totalObjectives := 2, occl := occlEmpty,
    mirrorOffsets := [] }

/-- An Orb facade with every agent cell disabled. -/
def orbAllDisabled : OrbState :=
  { irEyeCamera := false, irFaceCamera := false, rgbCamera := false,
    thermalCamera := false, megaAgentOne := false, megaAgentTwo := false,
    irAutoFocus := false, irAutoExposure := false, eyeTracker := false,
    eyePidController := false, mirror := false, distance := false,
    irNetEnabled := false, rgbNetEnabled := false, onlyRgbNetFrames := true,
    targetLeftEye := false, irLedWavelength := .off, irLedDuration := 0,
    irAutoFocusUseRgbNetEstimate := true, mirrorPoint := none, mirrorOffset := none }

/-- A well-scored estimate that perceives side `0`. -/
def estSide0 : IrEstimate :=
  { score := 1, sharpness := 1, occlusion30 := 100, perceivedSide := some 0 }

/-- A well-scored estimate that perceives side `1`. -/
def estSide1 : IrEstimate :=
  { score := 1, sharpness := 1, occlusion30 := 100, perceivedSide := some 1 }

/-- A concrete IR frame of mean intensity 100. -/
def frEx : IrFrame := { id := 0, mean := 100 }

/-- A zero calibration. -/
def calEx : Calibration := { mirror := { horizontalOffset := 0, verticalOffset := 0 } }

/-! ## C2 — fusion frame re-pairing by `source_ts` -/

/-- C2 (code_bug evidence): with pending queue
`[(frame 0, ts 1), (frame 1, ts 2)]` and a fusion output carrying
`source_ts = 2`, the fusion restore loop recovers frame 0 — recorded at
timestamp 1, not 2 — because its `source_ts == source_ts` comparison is a
tautology; the by-timestamp loop used by the non-fusion handlers (and
described by the claim) recovers frame 1 after discarding the older entry
in FIFO order. -/
theorem C2_fusion_pairing_eval :
    fusionRestoreFrame [(⟨0⟩, 1), (⟨1⟩, 2)] = some (⟨0⟩, [(⟨1⟩, 2)]) ∧
    restoreFrameByTs 2 [(⟨0⟩, 1), (⟨1⟩, 2)] = some (⟨1⟩, []) ∧
    decide ((⟨0⟩ : RgbFrame) = ⟨1⟩) = false ∧ decide ((1 : Nat) = 2) = false := by
  refine ⟨rfl, rfl, by decide, by decide⟩

/-! ## C5 — backpressure drop and the pending-queue bound -/

/-- The pipeline invariant: the pending-frame queue is exactly the
in-flight requests followed by the queued inbox, and the inbox respects its
capacity. -/
def ChanInv (s : ModelChannel) : Prop :=
  s.pending = s.inflight ++ s.inbox ∧ s.inbox.length ≤ s.capacity

theorem chanStep_capacity (s : ModelChannel) (e : ChanEvent) :
    (chanStep s e).capacity = s.capacity := by
  cases e with
  | sendFrame ts =>
      simp only [chanStep]
      split <;> rfl
  | modelDequeue =>
      simp only [chanStep]
      cases s.inbox <;> rfl
  | emitEstimate =>
      simp only [chanStep]
      cases s.inflight <;> rfl

theorem chanStep_inv (s : ModelChannel) (e : ChanEvent) (h : ChanInv s) :
    ChanInv (chanStep s e) := by
  obtain ⟨hq, hc⟩ := h
  cases e with
  | sendFrame ts =>
      simp only [chanStep]
      split
      · refine ⟨?_, ?_⟩
        · simp [hq, List.append_assoc]
        · simpa using Nat.succ_le_of_lt (by assumption)
      · exact ⟨hq, hc⟩
  | modelDequeue =>
      simp only [chanStep]
      cases hin : s.inbox with
      | nil => exact ⟨hq, hc⟩
      | cons t rest =>
          refine ⟨?_, ?_⟩
          · simp [hq, hin, List.append_assoc]
          · have := hc
            rw [hin] at this
            simpa using Nat.le_of_succ_le this
  | emitEstimate =>
      simp only [chanStep]
      cases hfl : s.inflight with
      | nil => exact ⟨hq, hc⟩
      | cons t rest =>
          refine ⟨?_, hc⟩
          rw [hq, hfl]
          simp [popUntil]

theorem chanFoldl_inv (events : List ChanEvent) :
    ∀ s : ModelChannel, ChanInv s →
      ChanInv (events.foldl chanStep s) ∧
        (events.foldl chanStep s).capacity = s.capacity := by
  induction events with
  | nil => intro s h; exact ⟨h, rfl⟩
  | cons e rest ih =>
      intro s h
      have h1 := chanStep_inv s e h
      have h2 := chanStep_capacity s e
      obtain ⟨ha, hb⟩ := ih (chanStep s e) h1
      exact ⟨ha, by simpa [h2] using hb⟩

/-- C5 (counterexample): with inbox capacity 1, sending a frame, letting the
model dequeue it, then sending a second frame leaves two entries in the
pending-frame queue — the claimed bound "pending queue length ≤ inbox
capacity at all times" fails. -/
theorem C5_pending_exceeds_capacity :
    (chanRun 1 [.sendFrame 1, .modelDequeue, .sendFrame 2]).pending.length = 2 ∧
    (chanRun 1 [.sendFrame 1, .modelDequeue, .sendFrame 2]).capacity = 1 ∧
    (chanRun 1 [.sendFrame 1, .modelDequeue, .sendFrame 2]).capacity <
      (chanRun 1 [.sendFrame 1, .modelDequeue, .sendFrame 2]).pending.length := by
  refine ⟨rfl, rfl, by decide⟩

/-- C5 (amended): a frame sent while the model inbox is full is dropped
without error and without touching the pending queue (the transition is a
no-op); and the pending queue length is bounded by the inbox capacity
**plus** the number of requests the model has dequeued but not yet
answered — not by the capacity alone. -/
theorem C5_drop_on_full_and_bound :
    (∀ (s : ModelChannel) (ts : Nat),
        ¬ s.inbox.length < s.capacity → chanStep s (.sendFrame ts) = s) ∧
    (∀ (cap : Nat) (events : List ChanEvent),
        (chanRun cap events).pending.length ≤
          cap + (chanRun cap events).inflight.length) := by
  constructor
  · intro s ts h
    simp only [chanStep]
    split
    · exact absurd (by assumption) h
    · rfl
  · intro cap events
    have h0 : ChanInv { capacity := cap, inbox := [], inflight := [], pending := [] } := by
      constructor <;> simp
    obtain ⟨⟨hq, hc⟩, hcap⟩ := chanFoldl_inv events _ h0
    unfold chanRun
    rw [hq]
    simp only [List.length_append]
    have : (events.foldl chanStep
        { capacity := cap, inbox := [], inflight := [], pending := [] }).inbox.length ≤ cap := by
      simpa [hcap] using hc
    omega

/-- Witness for `C5_drop_on_full_and_bound`. -/
theorem C5_drop_on_full_and_bound_witness :
    chanStep { capacity := 1, inbox := [5], inflight := [], pending := [5] }
        (.sendFrame 7) =
      { capacity := 1, inbox := [5], inflight := [], pending := [5] } ∧
    (chanRun 1 [.sendFrame 1, .modelDequeue, .sendFrame 2]).pending.length ≤
      1 + (chanRun 1 [.sendFrame 1, .modelDequeue, .sendFrame 2]).inflight.length :=
  ⟨C5_drop_on_full_and_bound.1 _ 7 (by decide),
   C5_drop_on_full_and_bound.2 1 [.sendFrame 1, .modelDequeue, .sendFrame 2]⟩

/-! ## C8 — objective-completion LED patterns -/

/-- C8 (code_bug evidence): the "all objectives completed" LED pattern is
unreachable — whenever the objective queue is empty, the preceding
`len ≤ total / 2` branch already fires the "half objectives completed"
pattern.  At the all-objectives-done state (`objectives = []`,
`total_objectives = 2`) the handler emits the half pattern and never the
all pattern. -/
theorem C8_all_objectives_pattern_unreachable :
    (∀ (c : Consts) (s : PlanState) (sharpness : ℚ),
        decide (LedEvent.allObjectivesCompleted ∈ (updateUx c s sharpness).2) = false) ∧
    LedEvent.halfObjectivesCompleted ∈ (updateUx cEx planBase 1).2 ∧
    decide (LedEvent.allObjectivesCompleted ∈ (updateUx cEx planBase 1).2) = false := by
  have hmain : ∀ (c : Consts) (s : PlanState) (sharpness : ℚ),
      LedEvent.allObjectivesCompleted ∉ (updateUx c s sharpness).2 := by
    intro c s sharpness
    simp only [updateUx, List.mem_append, List.mem_singleton]
    rintro (hmem | hne)
    · split at hmem
      · simp at hmem
      · next hgt =>
          split at hmem
          · next hempty =>
              rw [List.isEmpty_iff] at hempty
              exact hgt (by simp [hempty])
          · simp at hmem
    · exact absurd hne (by simp)
  exact ⟨fun c s sharpness => decide_eq_false (hmain c s sharpness), by decide,
    decide_eq_false (hmain cEx planBase 1)⟩

/-! ## C6 — continuous calibration -/

theorem minByAbsKey_go_spec (l : List ℚ) :
    ∀ m : ℚ, ∃ r,
      l.foldl
          (fun acc x =>
            match acc with
            | none => some x
            | some m => if |x| < |m| then some x else some m)
          (some m) = some r ∧
        r ∈ m :: l ∧ ∀ x ∈ m :: l, |r| ≤ |x| := by
  induction l with
  | nil =>
      intro m
      exact ⟨m, rfl, by simp, by simp⟩
  | cons a tail ih =>
      intro m
      by_cases hlt : |a| < |m|
      · obtain ⟨r, hr, hmem, hmin⟩ := ih a
        refine ⟨r, by simpa [hlt] using hr, List.mem_cons_of_mem m hmem, ?_⟩
        intro x hx
        rcases List.mem_cons.mp hx with h | h
        · subst h
          exact le_trans (hmin a (List.mem_cons.mpr (Or.inl rfl))) (le_of_lt hlt)
        · exact hmin x h
      · obtain ⟨r, hr, hmem, hmin⟩ := ih m
        refine ⟨r, by simpa [hlt] using hr, ?_, ?_⟩
        · rcases List.mem_cons.mp hmem with h | h
          · exact List.mem_cons.mpr (Or.inl h)
          · exact List.mem_cons_of_mem m (List.mem_cons_of_mem a h)
        · intro x hx
          rcases List.mem_cons.mp hx with h | h
          · subst h
            exact hmin x (List.mem_cons.mpr (Or.inl rfl))
          · rcases List.mem_cons.mp h with h2 | h2
            · subst h2
              exact le_trans (hmin m (List.mem_cons.mpr (Or.inl rfl))) (le_of_not_lt hlt)
            · exact hmin x (List.mem_cons_of_mem m h2)

theorem minByAbsKey_spec (l : List ℚ) (hne : l ≠ []) :
    ∃ r, minByAbsKey l = some r ∧ r ∈ l ∧ ∀ x ∈ l, |r| ≤ |x| := by
  cases l with
  | nil => exact absurd rfl hne
  | cons a tail =>
      obtain ⟨r, hr, hmem, hmin⟩ := minByAbsKey_go_spec tail a
      exact ⟨r, hr, hmem, hmin⟩

/-- C6: given at least two mirror-offset samples, `continuous_calibration`
adds to the persisted horizontal offset a sample horizontal value of minimum
absolute magnitude scaled by `CONTINUOUS_CALIBRATION_REDUCER`, independently
adds to the vertical offset a sample vertical value of minimum absolute
magnitude scaled by the same reducer, persists the calibration, and requests
the mirror actuator to reload it. -/
theorem C6_continuous_calibration (c : Consts) (cal : Calibration)
    (offsets : List MirrorPoint) (hlen : 2 ≤ offsets.length) :
    ∃ hm vm,
      hm ∈ offsets.map (·.horizontal) ∧
      (∀ x ∈ offsets.map (·.horizontal), |hm| ≤ |x|) ∧
      vm ∈ offsets.map (·.vertical) ∧
      (∀ y ∈ offsets.map (·.vertical), |vm| ≤ |y|) ∧
      continuousCalibration c cal offsets =
        some
          { calibration :=
              { mirror :=
                  { horizontalOffset :=
                      cal.mirror.horizontalOffset + hm * c.continuousCalibrationReducer
                    verticalOffset :=
                      cal.mirror.verticalOffset + vm * c.continuousCalibrationReducer } }
            stored := true
            reloadRequested := true } := by
  have hne : offsets ≠ [] := by
    intro h
    rw [h] at hlen
    simp at hlen
  have hneH : offsets.map (·.horizontal) ≠ [] := by
    simpa using hne
  have hneV : offsets.map (·.vertical) ≠ [] := by
    simpa using hne
  obtain ⟨hm, hmEq, hmMem, hmMin⟩ := minByAbsKey_spec _ hneH
  obtain ⟨vm, vmEq, vmMem, vmMin⟩ := minByAbsKey_spec _ hneV
  refine ⟨hm, vm, hmMem, hmMin, vmMem, vmMin, ?_⟩
  simp [continuousCalibration, hmEq, vmEq]

/-- Witness for `C6_continuous_calibration` at the samples of the spec's
scenario 6: the minimum-absolute horizontal and vertical values are picked
independently. -/
theorem C6_continuous_calibration_witness :
    ∃ hm vm,
      hm ∈ ([⟨3/10, 1/2⟩, ⟨-1/10, 1/5⟩, ⟨1/20, 9/10⟩] : List MirrorPoint).map (·.horizontal) ∧
      (∀ x ∈ ([⟨3/10, 1/2⟩, ⟨-1/10, 1/5⟩, ⟨1/20, 9/10⟩] : List MirrorPoint).map (·.horizontal),
        |hm| ≤ |x|) ∧
      vm ∈ ([⟨3/10, 1/2⟩, ⟨-1/10, 1/5⟩, ⟨1/20, 9/10⟩] : List MirrorPoint).map (·.vertical) ∧
      (∀ y ∈ ([⟨3/10, 1/2⟩, ⟨-1/10, 1/5⟩, ⟨1/20, 9/10⟩] : List MirrorPoint).map (·.vertical),
        |vm| ≤ |y|) ∧
      continuousCalibration cEx calEx [⟨3/10, 1/2⟩, ⟨-1/10, 1/5⟩, ⟨1/20, 9/10⟩] =
        some
          { calibration :=
              { mirror :=
                  { horizontalOffset :=
                      calEx.mirror.horizontalOffset + hm * cEx.continuousCalibrationReducer
                    verticalOffset :=
                      calEx.mirror.verticalOffset + vm * cEx.continuousCalibrationReducer } }
            stored := true
            reloadRequested := true } :=
  C6_continuous_calibration cEx calEx [⟨3/10, 1/2⟩, ⟨-1/10, 1/5⟩, ⟨1/20, 9/10⟩] (by decide)

/-! ## C1 — the perceived-side gate -/

/-- The IR slot of the eye currently targeted. -/
def targetIrSlot (s : PlanState) : Option FrameInfoIr :=
  if s.targetLeftEye then s.leftIr else s.rightIr

/-- C1 (amended): the IR-net handler skips the frame — leaving every slot
untouched and returning `Continue`, with only the occlusion machinery
updated — exactly when the perceived side differs from
`i32::from(!target_left_eye)`: side `0` is expected when targeting the
**left** eye and side `1` when targeting the **right** eye (the converse of
the claim's reading).  On a matching side with a sufficient score and
brightness, the frame is accepted into the target eye's slot. -/
theorem C1_perceived_side_gate (c : Consts) (ae : Bool) (s : PlanState)
    (est : IrEstimate) (frame : Option IrFrame) (now : ℚ) (side : ℤ)
    (hside : est.perceivedSide = some side) :
    (side ≠ (if s.targetLeftEye then 0 else 1) →
      handleIrNet c ae s (.estimate est) frame now =
        some ({ s with occl := (updateOcclusion c s.occl est now).1 },
              [LedEvent.occlusion (updateOcclusion c s.occl est now).2],
              .Continue)) ∧
    (side = (if s.targetLeftEye then 0 else 1) →
      ∀ f, frame = some f →
        c.irisScoreMin ≤ est.score →
        (ae = false ∨ c.irisBrightnessContains f.mean = true) →
        ∃ r, handleIrNet c ae s (.estimate est) frame now = some r ∧
          targetIrSlot r.1 = some ⟨est, f⟩) := by
  have hexp : (if !s.targetLeftEye then (1 : ℤ) else 0)
      = (if s.targetLeftEye then 0 else 1) := by
    cases s.targetLeftEye <;> rfl
  constructor
  · intro hne
    simp only [handleIrNet, hside, hexp]
    rw [if_pos hne]
  · intro heq f hf hscore hbright
    subst hf
    simp only [handleIrNet, hside, hexp]
    rw [if_neg (by simp [heq])]
    have hvalid : (decide (c.irisScoreMin ≤ est.score)
        && (!ae || c.irisBrightnessContains f.mean)) = true := by
      rcases hbright with h | h
      · subst h
        simp [hscore]
      · simp [hscore, h]
    rw [hvalid]
    simp only [if_true]
    set s1 := (updateUx c { s with occl := (updateOcclusion c s.occl est now).1 }
      est.sharpness).1 with hs1
    have htarget : s1.targetLeftEye = s.targetLeftEye := by
      simp [hs1, updateUx]
    cases htl : s.targetLeftEye
    · rw [htl] at htarget
      refine ⟨_, by rw [htarget], ?_⟩
      simp [targetIrSlot, htarget]
    · rw [htl] at htarget
      refine ⟨_, by rw [htarget], ?_⟩
      simp [targetIrSlot, htarget]

/-- Witness for `C1_perceived_side_gate`: targeting the right eye, a
perceived side of `0` is skipped (first part) and a perceived side of `1`
is accepted (second part). -/
theorem C1_perceived_side_gate_witness :
    (handleIrNet cEx true planBase (.estimate estSide0) (some frEx) 0 =
      some ({ planBase with occl := (updateOcclusion cEx planBase.occl estSide0 0).1 },
            [LedEvent.occlusion (updateOcclusion cEx planBase.occl estSide0 0).2],
            .Continue)) ∧
    (∃ r, handleIrNet cEx true planBase (.estimate estSide1) (some frEx) 0 =
        some r ∧ targetIrSlot r.1 = some ⟨estSide1, frEx⟩) :=
  ⟨(C1_perceived_side_gate cEx true planBase estSide0 (some frEx) 0 0 rfl).1 (by decide),
   (C1_perceived_side_gate cEx true planBase estSide1 (some frEx) 0 1 rfl).2 (by decide)
     frEx rfl (by norm_num [cEx, estSide1]) (Or.inr rfl)⟩

/-- C1 (counterexample): targeting the right eye
(`target_left_eye = false`) with an estimate whose `perceived_side` is `0`
and whose score and brightness pass every other gate — the claim reads side
`0` as the match for the right eye, so it predicts acceptance — the handler
skips the frame: the right-eye IR slot stays empty and the Plan state is
unchanged apart from the occlusion machinery. -/
theorem C1_side0_right_eye_skipped :
    planBase.targetLeftEye = false ∧
    estSide0.perceivedSide = some 0 ∧
    cEx.irisScoreMin ≤ estSide0.score ∧
    cEx.irisBrightnessContains frEx.mean = true ∧
    (handleIrNet cEx true planBase (.estimate estSide0) (some frEx) 0).map
        (fun r => r.1.rightIr) = some none ∧
    (handleIrNet cEx true planBase (.estimate estSide0) (some frEx) 0).map
        (fun r => r.2.2) = some .Continue := by
  refine ⟨rfl, rfl, by norm_num [cEx, estSide0], rfl, ?_, ?_⟩ <;> rfl

/-! ## C3 — IR frame acceptance -/

/-- C3: for an IR-net estimate that passes the perceived-side gate, the
frame lands in the target eye's IR slot iff
`score ≥ IRIS_SCORE_MIN && (auto-exposure disabled || mean ∈
IRIS_BRIGHTNESS_RANGE)` — otherwise the slot is left as it was — and in
particular a frame whose score equals `IRIS_SCORE_MIN` exactly is
accepted. -/
theorem C3_ir_frame_acceptance (c : Consts) (ae : Bool) (s : PlanState)
    (est : IrEstimate) (f : IrFrame) (now : ℚ) (side : ℤ)
    (hside : est.perceivedSide = some side)
    (hmatch : side = (if s.targetLeftEye then 0 else 1)) :
    ∃ s' events,
      handleIrNet c ae s (.estimate est) (some f) now = some (s', events, .Continue) ∧
      targetIrSlot s' =
        (if (decide (c.irisScoreMin ≤ est.score)
              && (!ae || c.irisBrightnessContains f.mean)) = true
         then some ⟨est, f⟩ else targetIrSlot s) ∧
      (est.score = c.irisScoreMin →
        (!ae || c.irisBrightnessContains f.mean) = true →
        targetIrSlot s' = some ⟨est, f⟩) := by
  have hexp : (if !s.targetLeftEye then (1 : ℤ) else 0)
      = (if s.targetLeftEye then 0 else 1) := by
    cases s.targetLeftEye <;> rfl
  simp only [handleIrNet, hside, hexp]
  rw [if_neg (by simp [hmatch])]
  cases hv : (decide (c.irisScoreMin ≤ est.score)
      && (!ae || c.irisBrightnessContains f.mean)) with
  | false =>
      simp only [Bool.false_eq_true, if_false]
      refine ⟨_, _, rfl, ?_, ?_⟩
      · cases htl : s.targetLeftEye <;> simp [targetIrSlot, updateUx, htl]
      · intro hmin hbr
        exfalso
        rw [Bool.and_eq_false_iff] at hv
        rcases hv with hv | hv
        · simp [hmin] at hv
        · exact absurd hbr (by simp [hv])
  | true =>
      set s1 := (updateUx c { s with occl := (updateOcclusion c s.occl est now).1 }
        est.sharpness).1 with hs1
      have htarget : s1.targetLeftEye = s.targetLeftEye := by
        simp [hs1, updateUx]
      cases htl : s.targetLeftEye
      · rw [htl] at htarget
        refine ⟨_, _, by rw [htarget]; rfl, ?_, fun _ _ => ?_⟩
        · rw [if_pos rfl]
          simp [targetIrSlot, htarget]
        · simp [targetIrSlot, htarget]
      · rw [htl] at htarget
        refine ⟨_, _, by rw [htarget]; rfl, ?_, fun _ _ => ?_⟩
        · rw [if_pos rfl]
          simp [targetIrSlot, htarget]
        · simp [targetIrSlot, htarget]

/-- Witness for `C3_ir_frame_acceptance`: a frame whose score equals
`IRIS_SCORE_MIN` exactly, with auto-exposure enabled and the mean inside the
brightness range, is accepted into the right-eye slot. -/
theorem C3_ir_frame_acceptance_witness :
    ∃ s' events,
      handleIrNet cEx true planBase
          (.estimate { score := 1/2, sharpness := 1, occlusion30 := 100,
                       perceivedSide := some 1 }) (some frEx) 0 =
        some (s', events, .Continue) ∧
      targetIrSlot s' =
        (if (decide (cEx.irisScoreMin ≤
              ({ score := 1/2, sharpness := 1, occlusion30 := 100,
                 perceivedSide := some 1 } : IrEstimate).score)
              && (!true || cEx.irisBrightnessContains frEx.mean)) = true
         then some ⟨{ score := 1/2, sharpness := 1, occlusion30 := 100,
                      perceivedSide := some 1 }, frEx⟩
         else targetIrSlot planBase) ∧
      (({ score := 1/2, sharpness := 1, occlusion30 := 100,
          perceivedSide := some 1 } : IrEstimate).score = cEx.irisScoreMin →
        (!true || cEx.irisBrightnessContains frEx.mean) = true →
        targetIrSlot s' =
          some ⟨{ score := 1/2, sharpness := 1, occlusion30 := 100,
                  perceivedSide := some 1 }, frEx⟩) :=
  C3_ir_frame_acceptance cEx true planBase
    { score := 1/2, sharpness := 1, occlusion30 := 100, perceivedSide := some 1 }
    frEx 0 1 rfl (by decide)

/-! ## C7 — occlusion indicator hysteresis -/

theorem updateOcclusion_on_within (c : Consts) (s : OcclState) (est : IrEstimate)
    (now t0 : ℚ) (h1 : s.onTime = some t0) (h2 : now - t0 < occlusionMinInterval) :
    updateOcclusion c s est now =
      ({ timerLast := some now, filterValue := some (occlusionFiltered c s est now),
         onTime := some t0 }, true) := by
  simp only [updateOcclusion, h1]
  rw [if_pos (by simp [h2])]
  simp

theorem occlusionRun_stays_on (c : Consts) (updates : List (IrEstimate × ℚ)) :
    ∀ (s : OcclState) (t0 : ℚ), s.onTime = some t0 →
      (∀ u ∈ updates, u.2 - t0 < occlusionMinInterval) →
      (occlusionRun c s updates).1.onTime = some t0 ∧
        ∀ b ∈ (occlusionRun c s updates).2, b = true := by
  induction updates with
  | nil =>
      intro s t0 h1 _
      exact ⟨h1, by simp [occlusionRun]⟩
  | cons u rest ih =>
      intro s t0 h1 hall
      obtain ⟨est, now⟩ := u
      have hstep := updateOcclusion_on_within c s est now t0 h1
        (hall (est, now) (List.mem_cons.mpr (Or.inl rfl)))
      have hrest := ih ⟨some now, some (occlusionFiltered c s est now), some t0⟩ t0 rfl
        (fun v hv => hall v (List.mem_cons_of_mem _ hv))
      simp only [occlusionRun, hstep]
      refine ⟨hrest.1, ?_⟩
      intro b hb
      rcases List.mem_cons.mp hb with h | h
      · exact h
      · exact hrest.2 b h

/-- C7: (1) once the occlusion indicator is on at time `t0`, it stays on —
and keeps its on-time anchor — across every subsequent filter update within
450 ms (`OCCLUSION_INDICATOR_MIN_TIME_INTERVAL`) of `t0`, regardless of the
filtered value; (2) from the off state it switches on exactly when the
filtered value drops below `THRESHOLD × 0.975`; (3) once on, even past the
minimum interval, it stays on while the filtered value is below
`THRESHOLD × 1.025`. -/
theorem C7_occlusion_hysteresis (c : Consts) :
    (∀ (s : OcclState) (t0 : ℚ) (updates : List (IrEstimate × ℚ)),
        s.onTime = some t0 →
        (∀ u ∈ updates, u.2 - t0 < occlusionMinInterval) →
        (occlusionRun c s updates).1.onTime = some t0 ∧
          ∀ b ∈ (occlusionRun c s updates).2, b = true) ∧
    (∀ (s : OcclState) (est : IrEstimate) (now : ℚ), s.onTime = none →
        ((updateOcclusion c s est now).2 = true ↔
          occlusionFiltered c s est now < c.thresholdOcclusion30 * (39 / 40))) ∧
    (∀ (s : OcclState) (est : IrEstimate) (now t0 : ℚ), s.onTime = some t0 →
        occlusionMinInterval ≤ now - t0 →
        occlusionFiltered c s est now < c.thresholdOcclusion30 * (41 / 40) →
        (updateOcclusion c s est now).2 = true) := by
  refine ⟨fun s t0 updates h1 h2 => occlusionRun_stays_on c updates s t0 h1 h2, ?_, ?_⟩
  · intro s est now hoff
    simp only [updateOcclusion, hoff]
    constructor
    · intro h
      by_contra hnot
      rw [if_neg (by simpa using hnot)] at h
      simp at h
    · intro h
      rw [if_pos (by simpa using h)]
  · intro s est now t0 h1 _ hlt
    simp only [updateOcclusion, h1]
    rw [if_pos (by simp [hlt])]

/-- Witness for `C7_occlusion_hysteresis`: with the indicator on since time
0, an update at 0.1 s with a fully-clear filtered value keeps it on; with
the indicator off, a heavily occluded sample switches it on; past the
interval the indicator stays on while the filtered value is slightly below
threshold. -/
theorem C7_occlusion_hysteresis_witness :
    (occlusionRun cEx { timerLast := some 0, filterValue := some 100, onTime := some 0 }
        [({ score := 1, sharpness := 1, occlusion30 := 100, perceivedSide := none }, 1/10)]).1.onTime
      = some 0 ∧
    ((updateOcclusion cEx { timerLast := some 0, filterValue := some 0, onTime := none }
        { score := 1, sharpness := 1, occlusion30 := 0, perceivedSide := none } 1).2 = true ↔
      occlusionFiltered cEx { timerLast := some 0, filterValue := some 0, onTime := none }
          { score := 1, sharpness := 1, occlusion30 := 0, perceivedSide := none } 1 <
        cEx.thresholdOcclusion30 * (39 / 40)) ∧
    ((updateOcclusion cEx { timerLast := some 0, filterValue := some 0, onTime := some 0 }
        { score := 1, sharpness := 1, occlusion30 := 0, perceivedSide := none } 1).2 = true) :=
  ⟨((C7_occlusion_hysteresis cEx).1 _ 0
      [({ score := 1, sharpness := 1, occlusion30 := 100, perceivedSide := none }, 1/10)]
      rfl
      (by
        intro u hu
        simp only [List.mem_singleton] at hu
        subst hu
        norm_num [occlusionMinInterval])).1,
   (C7_occlusion_hysteresis cEx).2.1 _ _ 1 rfl,
   (C7_occlusion_hysteresis cEx).2.2 _ _ 1 0 rfl
     (by norm_num [occlusionMinInterval])
     (by norm_num [occlusionFiltered, lowPassAdd, occlusionInput, occlusionDt,
       occlusionRc, cEx])⟩

/-! ## C10 — face-identifier handler and the `only_rgb_net_frames` switch -/

/-- C10: whenever the face-identifier handler receives an `IsValidImage`
output with `is_valid = Some(true)`, it sets the Orb's
`only_rgb_net_frames` flag — even when the candidate is not replaced
because the score does not strictly exceed the best score so far, and in
particular a first valid output whose score is not strictly greater than
`0.0` never becomes the candidate. -/
theorem C10_only_rgb_net_frames_switch (s : PlanState) (orb : OrbState)
    (out : IsValidOutput) (f : RgbFrame) (hv : out.isValid = some true) :
    ∃ s' orb',
      handleFaceIdentifier s orb (.isValidImage out) (some f) =
        some (s', orb', .Continue) ∧
      orb'.onlyRgbNetFrames = true ∧
      ((∀ sc, out.score = some sc → sc ≤ candidateHighestScore s) →
        s'.selfCustodyCandidateRgb = s.selfCustodyCandidateRgb) ∧
      (s.selfCustodyCandidateRgb = none →
        (∀ sc, out.score = some sc → sc ≤ 0) →
        s'.selfCustodyCandidateRgb = none) := by
  simp only [handleFaceIdentifier, hv, Option.getD_some, if_true]
  cases hsc : out.score with
  | none =>
      refine ⟨s, _, rfl, rfl, fun _ => rfl, fun _ _ => ?_⟩
      assumption
  | some sc =>
      by_cases hgt : candidateHighestScore s < sc
      · rw [if_pos (by simp [hgt])]
        refine ⟨_, _, rfl, rfl, ?_, ?_⟩
        · intro hle
          exact absurd (hle sc rfl) (not_le.mpr hgt)
        · intro hnone hle
          exfalso
          have h0 : candidateHighestScore s = 0 := by
            simp [candidateHighestScore, hnone]
          exact absurd (hle sc rfl) (not_le.mpr (h0 ▸ hgt))
      · rw [if_neg (by simp [hgt])]
        exact ⟨s, _, rfl, rfl, fun _ => rfl, fun h _ => h⟩

/-- Witness for `C10_only_rgb_net_frames_switch`: a first valid output with
score `0` flips the flag but never becomes the candidate. -/
theorem C10_only_rgb_net_frames_switch_witness :
    ∃ s' orb',
      handleFaceIdentifier planBase orbAllDisabled
          (.isValidImage
            { isValid := some true, score := some 0, error := none,
              rgbNetBbox := ⟨0, 0, 1, 1⟩, rgbNetEyeLandmarks := (⟨0, 0⟩, ⟨1, 1⟩) })
          (some ⟨7⟩) =
        some (s', orb', .Continue) ∧
      orb'.onlyRgbNetFrames = true ∧
      ((∀ sc,
          ({ isValid := some true, score := some 0, error := none,
             rgbNetBbox := ⟨0, 0, 1, 1⟩,
             rgbNetEyeLandmarks := (⟨0, 0⟩, ⟨1, 1⟩) } : IsValidOutput).score = some sc →
          sc ≤ candidateHighestScore planBase) →
        s'.selfCustodyCandidateRgb = planBase.selfCustodyCandidateRgb) ∧
      (planBase.selfCustodyCandidateRgb = none →
        (∀ sc,
          ({ isValid := some true, score := some 0, error := none,
             rgbNetBbox := ⟨0, 0, 1, 1⟩,
             rgbNetEyeLandmarks := (⟨0, 0⟩, ⟨1, 1⟩) } : IsValidOutput).score = some sc →
          sc ≤ 0) →
        s'.selfCustodyCandidateRgb = none) :=
  C10_only_rgb_net_frames_switch planBase orbAllDisabled
    { isValid := some true, score := some 0, error := none,
      rgbNetBbox := ⟨0, 0, 1, 1⟩, rgbNetEyeLandmarks := (⟨0, 0⟩, ⟨1, 1⟩) }
    ⟨7⟩ rfl

/-! ## C4 — session timeout -/

theorem trackGps_preserves (s : PlanState) (m : GpsMsg) :
    (trackGps s m).objectives = s.objectives ∧
    (trackGps s m).targetLeftEye = s.targetLeftEye ∧
    (trackGps s m).timedOut = s.timedOut ∧
    (trackGps s m).leftIr = s.leftIr ∧
    (trackGps s m).leftRgb = s.leftRgb ∧
    (trackGps s m).rightIr = s.rightIr ∧
    (trackGps s m).rightRgb = s.rightRgb ∧
    (trackGps s m).selfCustodyCandidateRgb = s.selfCustodyCandidateRgb := by
  unfold trackGps
  rcases m with ⟨lat, lon⟩
  cases lat <;> cases lon <;> simp

theorem foldlTrackGps_preserves (gps : List GpsMsg) :
    ∀ s : PlanState,
      (gps.foldl trackGps s).objectives = s.objectives ∧
      (gps.foldl trackGps s).targetLeftEye = s.targetLeftEye ∧
      (gps.foldl trackGps s).timedOut = s.timedOut ∧
      (gps.foldl trackGps s).leftIr = s.leftIr ∧
      (gps.foldl trackGps s).leftRgb = s.leftRgb ∧
      (gps.foldl trackGps s).rightIr = s.rightIr ∧
      (gps.foldl trackGps s).rightRgb = s.rightRgb ∧
      (gps.foldl trackGps s).selfCustodyCandidateRgb = s.selfCustodyCandidateRgb := by
  induction gps with
  | nil =>
      intro s
      exact ⟨rfl, rfl, rfl, rfl, rfl, rfl, rfl, rfl⟩
  | cons m rest ih =>
      intro s
      obtain ⟨a1, a2, a3, a4, a5, a6, a7, a8⟩ := trackGps_preserves s m
      obtain ⟨b1, b2, b3, b4, b5, b6, b7, b8⟩ := ih (trackGps s m)
      exact ⟨b1.trans a1, b2.trans a2, b3.trans a3, b4.trans a4,
             b5.trans a5, b6.trans a6, b7.trans a7, b8.trans a8⟩

theorem intoCapture_eq_none (s : PlanState)
    (h : s.leftIr = none ∨ s.leftRgb = none ∨ s.rightIr = none ∨
      s.rightRgb = none ∨ s.selfCustodyCandidateRgb = none) :
    intoCapture s = none := by
  unfold intoCapture
  cases hl : s.leftIr <;> cases hlr : s.leftRgb <;> cases hri : s.rightIr <;>
    cases hrr : s.rightRgb <;> cases hc : s.selfCustodyCandidateRgb <;>
    simp_all

theorem iteTrueBool {α : Sort _} (a b : α) :
    (if (true : Bool) = true then a else b) = a := rfl

theorem iteFalseBool {α : Sort _} (a b : α) :
    (if (false : Bool) = true then a else b) = b := rfl

/-- A break of `poll_extra` via the timeout branch happens only with an
incomplete capture. -/
theorem pollExtra_timeout_no_capture (s : PlanState) (gps : List GpsMsg)
    (sB : PlanState) (hto : s.timedOut = false)
    (hpoll : pollExtra s gps true = (sB, .Break))
    (hTimed : sB.timedOut = true) :
    intoCapture sB = none := by
  obtain ⟨hobj, htl, htd, hli, hlr, hri, hrr, hcand⟩ := foldlTrackGps_preserves gps s
  simp only [pollExtra] at hpoll
  set sG := gps.foldl trackGps s with hsG
  have hGto : sG.timedOut = false := htd.trans hto
  cases htlG : sG.targetLeftEye with
  | false =>
      rw [htlG] at hpoll
      simp only [iteFalseBool, iteTrueBool, if_true, if_false] at hpoll
      by_cases hs2 : (sG.rightRgb.isSome && sG.rightIr.isSome) = true
      · rw [if_pos hs2] at hpoll
        by_cases hobjE : sG.objectives.isEmpty = true
        · simp only [hobjE, Bool.not_true, iteFalseBool, if_true, if_false] at hpoll
          by_cases hcandE : sG.selfCustodyCandidateRgb.isSome = true
          · rw [if_pos hcandE] at hpoll
            injection hpoll with h1 h2
            rw [← h1, hGto] at hTimed
            exact absurd hTimed (by simp)
          · rw [if_neg hcandE] at hpoll
            injection hpoll with h1 h2
            refine intoCapture_eq_none sB (Or.inr (Or.inr (Or.inr (Or.inr ?_))))
            rw [← h1]
            show sG.selfCustodyCandidateRgb = none
            exact Option.not_isSome_iff_eq_none.mp hcandE
        · have hobjF : sG.objectives.isEmpty = false := by
            cases h : sG.objectives.isEmpty
            · rfl
            · exact absurd h hobjE
          simp only [hobjF, Bool.not_false, iteTrueBool, if_true, if_false] at hpoll
          injection hpoll with h1 h2
          rw [← h1, hGto] at hTimed
          exact absurd hTimed (by simp)
      · rw [if_neg hs2] at hpoll
        injection hpoll with h1 h2
        rw [Bool.and_eq_true] at hs2
        push_neg at hs2
        by_cases hrgb : sG.rightRgb.isSome = true
        · have hir : sG.rightIr = none :=
            Option.not_isSome_iff_eq_none.mp (hs2 hrgb)
          refine intoCapture_eq_none sB (Or.inr (Or.inr (Or.inl ?_)))
          rw [← h1]
          exact hir
        · have hrgbn : sG.rightRgb = none := Option.not_isSome_iff_eq_none.mp hrgb
          refine intoCapture_eq_none sB (Or.inr (Or.inr (Or.inr (Or.inl ?_))))
          rw [← h1]
          exact hrgbn
  | true =>
      rw [htlG] at hpoll
      simp only [iteFalseBool, iteTrueBool, if_true, if_false] at hpoll
      by_cases hs2 : (sG.leftRgb.isSome && sG.leftIr.isSome) = true
      · rw [if_pos hs2] at hpoll
        by_cases hobjE : sG.objectives.isEmpty = true
        · simp only [hobjE, Bool.not_true, iteFalseBool, if_true, if_false] at hpoll
          by_cases hcandE : sG.selfCustodyCandidateRgb.isSome = true
          · rw [if_pos hcandE] at hpoll
            injection hpoll with h1 h2
            rw [← h1, hGto] at hTimed
            exact absurd hTimed (by simp)
          · rw [if_neg hcandE] at hpoll
            injection hpoll with h1 h2
            refine intoCapture_eq_none sB (Or.inr (Or.inr (Or.inr (Or.inr ?_))))
            rw [← h1]
            show sG.selfCustodyCandidateRgb = none
            exact Option.not_isSome_iff_eq_none.mp hcandE
        · have hobjF : sG.objectives.isEmpty = false := by
            cases h : sG.objectives.isEmpty
            · rfl
            · exact absurd h hobjE
          simp only [hobjF, Bool.not_false, iteTrueBool, if_true, if_false] at hpoll
          injection hpoll with h1 h2
          rw [← h1, hGto] at hTimed
          exact absurd hTimed (by simp)
      · rw [if_neg hs2] at hpoll
        injection hpoll with h1 h2
        rw [Bool.and_eq_true] at hs2
        push_neg at hs2
        by_cases hrgb : sG.leftRgb.isSome = true
        · have hir : sG.leftIr = none :=
            Option.not_isSome_iff_eq_none.mp (hs2 hrgb)
          refine intoCapture_eq_none sB (Or.inl ?_)
          rw [← h1]
          exact hir
        · have hrgbn : sG.leftRgb = none := Option.not_isSome_iff_eq_none.mp hrgb
          refine intoCapture_eq_none sB (Or.inr (Or.inl ?_))
          rw [← h1]
          exact hrgbn

/-- `run_post` on an incomplete capture: the output's `capture` is `None`,
the log is assembled from the four histories, and continuous calibration is
not run. -/
theorem runPost_of_capture_none (c : Consts) (s : PlanState) (orb : OrbState)
    (cal : Calibration) (l1 l2 l3 l4 : Nat) (r : RunPostResult)
    (hcap : intoCapture s = none)
    (h : runPost c s orb cal l1 l2 l3 l4 = some r) :
    r.output.capture = none ∧
    r.output.log = { irEyeCamera := l1, irFaceCamera := l2, mainMcu := l3, mirror := l4 } ∧
    r.calibrationRan = false := by
  unfold runPost at h
  rw [hcap] at h
  by_cases hd : orb.distance <;> by_cases ht : orb.thermalCamera <;>
    by_cases hrg : orb.rgbCamera <;> by_cases hie : orb.irEyeCamera <;>
    by_cases hif : orb.irFaceCamera <;> by_cases hm : orb.mirror <;>
    simp only [disableIrNet, disableRgbNet, hd, ht, hrg, hie, hif, hm, Bool.not_true,
      Bool.not_false, if_true, if_false, iteTrueBool, iteFalseBool] at h <;>
    first
      | exact Option.noConfusion h
      | (injection h with h2; subst h2; exact ⟨rfl, rfl, rfl⟩)

/-- C4: when the session timeout fires before the capture is complete (the
`poll_extra` break sets `timed_out`), `run_check` exits the loop, and
`run_post` returns an `Output` whose `capture` is `None` while the `log` is
assembled from the IR eye camera, IR face camera, main MCU, and mirror
histories. -/
theorem C4_timeout_session_output (c : Consts) (s : PlanState)
    (gps : List GpsMsg) (orb : OrbState) (cal : Calibration)
    (l1 l2 l3 l4 : Nat) (sB : PlanState)
    (hto : s.timedOut = false)
    (hpoll : pollExtra s gps true = (sB, .Break))
    (hTimed : sB.timedOut = true) :
    ∀ s2 orb2 exits, runCheck sB orb = some (s2, orb2, exits) →
      exits = true ∧
      ∀ r, runPost c s2 orb2 cal l1 l2 l3 l4 = some r →
        r.output.capture = none ∧
        r.output.log =
          { irEyeCamera := l1, irFaceCamera := l2, mainMcu := l3, mirror := l4 } ∧
        r.calibrationRan = false := by
  intro s2 orb2 exits hchk
  have hcapB : intoCapture sB = none :=
    pollExtra_timeout_no_capture s gps sB hto hpoll hTimed
  unfold runCheck at hchk
  cases hmo : orb.mirrorOffset with
  | none =>
      rw [hmo] at hchk
      simp at hchk
  | some off =>
      rw [hmo] at hchk
      simp only [hTimed, if_true] at hchk
      obtain ⟨h1, h2, h3⟩ := by
        simpa using hchk
      refine ⟨h3, ?_⟩
      intro r hpost
      have hcap2 : intoCapture s2 = none := by
        rw [← h1]
        exact hcapB
      exact runPost_of_capture_none c s2 orb2 cal l1 l2 l3 l4 r hcap2 hpost

/-- Fixture: the state after a timeout break of `poll_extra` on a fresh
Plan. -/
def sTimedOutEx : PlanState := { planBase with timedOut := true }

/-- Fixture: an Orb with every session agent enabled (the state `run_pre`
produces), one mirror offset recorded. -/
def orbEnabledEx : OrbState :=
  { irEyeCamera := true, irFaceCamera := true, rgbCamera := true,
    thermalCamera := false, megaAgentOne := true, megaAgentTwo := true,
    irAutoFocus := true, irAutoExposure := true, eyeTracker := true,
    eyePidController := true, mirror := true, distance := true,
    irNetEnabled := true, rgbNetEnabled := true, onlyRgbNetFrames := true,
    targetLeftEye := false, irLedWavelength := .L850, irLedDuration := 300,
    irAutoFocusUseRgbNetEstimate := true, mirrorPoint := none,
    mirrorOffset := some ⟨1, 2⟩ }

/-- Fixture: the Plan state after `run_check` pushed the mirror offset. -/
def s2Ex : PlanState := { sTimedOutEx with mirrorOffsets := [⟨1, 2⟩] }

/-- Witness for `C4_timeout_session_output`: a concrete timed-out session
returns `capture = none` with the four histories in the log. -/
theorem C4_timeout_session_output_witness :
    ∃ r, runPost cEx s2Ex orbEnabledEx calEx 1 2 3 4 = some r ∧
      r.output.capture = none ∧
      r.output.log = { irEyeCamera := 1, irFaceCamera := 2, mainMcu := 3, mirror := 4 } ∧
      r.calibrationRan = false := by
  refine ⟨_, rfl, ?_⟩
  exact ((C4_timeout_session_output cEx planBase [] orbEnabledEx calEx 1 2 3 4
    sTimedOutEx rfl rfl rfl) s2Ex orbEnabledEx true rfl).2 _ rfl

/-! ## C9 — agent shutdown after `run_post` -/

/-- `run_post` always leaves the cameras, auxiliary agents, the mirror, the
distance agent and both model flags disabled, and never touches the two
mega-agent cells hosting the models. -/
theorem runPost_orb_flags (c : Consts) (s : PlanState) (orb : OrbState)
    (cal : Calibration) (l1 l2 l3 l4 : Nat) (r : RunPostResult)
    (h : runPost c s orb cal l1 l2 l3 l4 = some r) :
    r.orb.irEyeCamera = false ∧ r.orb.irFaceCamera = false ∧
    r.orb.rgbCamera = false ∧ r.orb.thermalCamera = false ∧
    r.orb.irAutoFocus = false ∧ r.orb.irAutoExposure = false ∧
    r.orb.eyeTracker = false ∧ r.orb.eyePidController = false ∧
    r.orb.mirror = false ∧ r.orb.distance = false ∧
    r.orb.irNetEnabled = false ∧ r.orb.rgbNetEnabled = false ∧
    r.orb.megaAgentOne = orb.megaAgentOne ∧
    r.orb.megaAgentTwo = orb.megaAgentTwo := by
  unfold runPost at h
  simp only [disableIrNet, disableRgbNet] at h
  repeat' split at h
  all_goals
    first
      | exact Option.noConfusion h
      | (injection h with h2; subst h2;
         refine ⟨rfl, rfl, rfl, ?_, rfl, rfl, rfl, rfl, rfl, rfl, rfl, rfl, rfl, rfl⟩;
         simp_all)

/-- C9 (amended): after `run_post`, every agent cell that `run_pre` enabled
or started is disabled and the IR-net and RGB-net model flags are cleared —
**except** the two mega-agent cells hosting the models, which `run_post`
never disables and which remain enabled. -/
theorem C9_agents_disabled_after_post (c : Consts) (s s2 : PlanState)
    (orb : OrbState) (thermalConfigured : Bool) (cal : Calibration)
    (l1 l2 l3 l4 : Nat) (s1 : PlanState) (orb1 : OrbState) (r : RunPostResult)
    (hpre : runPre c s orb thermalConfigured = some (s1, orb1))
    (hpost : runPost c s2 orb1 cal l1 l2 l3 l4 = some r) :
    (r.orb.irEyeCamera = false ∧ r.orb.irFaceCamera = false ∧
     r.orb.rgbCamera = false ∧ r.orb.thermalCamera = false ∧
     r.orb.irAutoFocus = false ∧ r.orb.irAutoExposure = false ∧
     r.orb.eyeTracker = false ∧ r.orb.eyePidController = false ∧
     r.orb.mirror = false ∧ r.orb.distance = false ∧
     r.orb.irNetEnabled = false ∧ r.orb.rgbNetEnabled = false) ∧
    r.orb.megaAgentOne = true ∧ r.orb.megaAgentTwo = true := by
  have hmega : orb1.megaAgentOne = true ∧ orb1.megaAgentTwo = true := by
    cases hobj : s.objectives with
    | nil =>
        exfalso
        cases hcfg : thermalConfigured <;>
          simp [runPre, setNextObjective, hobj, hcfg] at hpre
    | cons o rest =>
        cases hcfg : thermalConfigured <;>
          simp only [runPre, setNextObjective, enableIrNet, enableRgbNet, hobj, hcfg,
            iteTrueBool, iteFalseBool, if_true, if_false, Option.some.injEq,
            Prod.mk.injEq] at hpre <;>
        obtain ⟨hs1, horb⟩ := hpre <;>
        rw [← horb] <;>
        exact ⟨rfl, rfl⟩
  obtain ⟨f1, f2, f3, f4, f5, f6, f7, f8, f9, f10, f11, f12, g1, g2⟩ :=
    runPost_orb_flags c s2 orb1 cal l1 l2 l3 l4 r hpost
  exact ⟨⟨f1, f2, f3, f4, f5, f6, f7, f8, f9, f10, f11, f12⟩,
         g1.trans hmega.1, g2.trans hmega.2⟩

/-- Fixture: a one-objective Plan about to start. -/
def planC9 : PlanState :=
  { planBase with
    objectives := [{ targetLeftEye := false, irLedWavelength := .L850,
                     irLedDuration := 300, onlyRgbNetFrames := true }]
    totalObjectives := 1 }

/-- Fixture: `planC9` after `run_pre` (objective popped, occlusion filter
primed with `THRESHOLD × 1.5 = 15`). -/
def planC9Mid : PlanState :=
  { planBase with
    totalObjectives := 1
    occl :=
      { timerLast := none
        filterValue := some (lowPassAdd none (cEx.thresholdOcclusion30 * (3 / 2)) 0 occlusionRc)
        onTime := none } }

/-- Fixture: `orbEnabledEx` without the recorded mirror offset — exactly the
Orb state `run_pre` builds from a fully disabled Orb. -/
def orbPreEx : OrbState := { orbEnabledEx with mirrorOffset := none }

/-- C9 (counterexample): running `run_pre` then `run_post` from a fully
disabled Orb leaves the mega-agent-one and mega-agent-two cells — the cells
hosting the IR-net and RGB-net models, which `run_pre` enabled — still
enabled, contradicting the claim that after `run_post` every agent enabled
by `run_pre` (including those hosting cells) is disabled. -/
theorem C9_mega_cells_remain_enabled :
    runPre cEx planC9 orbAllDisabled false = some (planC9Mid, orbPreEx) ∧
    (runPost cEx planC9Mid orbPreEx calEx 0 0 0 0).map (fun r => r.orb.megaAgentOne) =
      some true ∧
    (runPost cEx planC9Mid orbPreEx calEx 0 0 0 0).map (fun r => r.orb.megaAgentTwo) =
      some true := by
  refine ⟨rfl, rfl, rfl⟩

/-- Witness for `C9_agents_disabled_after_post` on the concrete one-objective
session. -/
theorem C9_agents_disabled_after_post_witness :
    ∃ r, runPost cEx planC9Mid orbPreEx calEx 0 0 0 0 = some r ∧
      ((r.orb.irEyeCamera = false ∧ r.orb.irFaceCamera = false ∧
        r.orb.rgbCamera = false ∧ r.orb.thermalCamera = false ∧
        r.orb.irAutoFocus = false ∧ r.orb.irAutoExposure = false ∧
        r.orb.eyeTracker = false ∧ r.orb.eyePidController = false ∧
        r.orb.mirror = false ∧ r.orb.distance = false ∧
        r.orb.irNetEnabled = false ∧ r.orb.rgbNetEnabled = false) ∧
       r.orb.megaAgentOne = true ∧ r.orb.megaAgentTwo = true) := by
  refine ⟨_, rfl, ?_⟩
  exact C9_agents_disabled_after_post cEx planC9 planC9Mid orbAllDisabled false calEx
    0 0 0 0 planC9Mid orbPreEx _ rfl rfl

end OrbCore
